import Mathlib

/-!
Shallow embedding of `src/api/common/httpApiClient.ts` (repository akon47/trend).

The module is an axios-based HTTP client adapter:
* `createHttpApiClient(uri)` builds an `AxiosHttpApiClientImpl` bound to
  `apiBaseUrl + uri`, with a request interceptor (pure pass-through) and a
  response interceptor (success pass-through, failure normalized into
  `AxiosHttpApiErrorImpl`) installed.
* Six operations (get, delete, post, put, patch, uploadFile) delegate to the
  axios instance and unwrap `response.data` through `createHttpApiResponse`.

Modelling choices:
* The axios instance's network call is abstracted as a `Transport` oracle
  mapping a constructed request to an outcome (a success response or a raw
  failure).  Each operation additionally threads a log of issued requests, so
  that "exactly one transport request is issued" is a provable statement.
* JavaScript `undefined` is `Option.none`; JS truthiness of strings
  (`if (this.serverErrorMessage)`) is modelled explicitly (`none` and the
  empty string are falsy).
* Promise resolution/rejection is `Except`: `.ok` is resolve, `.error` reject.
* Type parameters: `π` query params (`any`), `η` headers (`any`), `δ` the
  `DataTransferObject` payload of request bodies, `β` `Blob`, `α` the
  deserialized response payload `T`.
-/

/-- JS truthiness of a string: the empty string is falsy. -/
def truthyS (s : String) : Bool := s ≠ ""

/-- JS truthiness of a possibly-undefined string: `undefined` and `""` are falsy. -/
def truthyOS : Option String → Bool
  | none => false
  | some s => truthyS s

/-- Modelled from the spec: `ErrorResponseDto` is imported from
`../models/common.dtos`, which is not under `src/`.  The spec gives the server
error-body contract as `\x7b name: string, message: string \x7d` mapped into server
error code/message; both fields are `Option` because the constructor reads them
through optional chaining (`error.response?.data?.name`), i.e. either may be
absent at runtime. -/
structure ErrorResponseDto where
  name : Option String
  message : Option String

/-- Model of `AxiosResponse<τ>`: the fields this module reads
(`status`, `statusText`, `data`). -/
structure AxiosResponse (τ : Type) where
  status : Nat
  statusText : String
  data : τ

/-- Model of `AxiosRequestConfig` as built and read by this module:
`params`/`headers` from `buildAxiosRequestConfig`, plus the `retryCount` field
that `CustomAxiosRequestConfig` declares on top of it (`none` while unset,
which is how every config built by this module starts out). -/
structure AxiosRequestConfig (π η : Type) where
  params : Option π
  headers : Option η
  retryCount : Option Nat

/-- Model of `AxiosError<ErrorResponseDto>`: an optional response (absent on
e.g. network loss), the error's own `message`, and the originating request
config (absent when the error was constructed bare, as in
`new AxiosError(error.message)`). -/
structure AxiosError (π η : Type) where
  response : Option (AxiosResponse (Option ErrorResponseDto))
  message : String
  config : Option (AxiosRequestConfig π η)

/-- `AxiosHttpApiErrorImpl`: the normalized error shape (`HttpApiError`)
every rejection is wrapped into. -/
structure AxiosHttpApiErrorImpl (π η : Type) where
  statusCode : Option Nat
  statusText : Option String
  serverErrorCode : Option String
  serverErrorMessage : Option String
  message : String
  name : String
  config : Option (AxiosRequestConfig π η)

/-- The `AxiosHttpApiErrorImpl` constructor: field-by-field translation of
lines 61-70 of the source (`error.response?.status`, `error.response?.statusText`,
`error.response?.data?.name`, `error.response?.data?.message`,
`name = 'HttpApiError'`, `message = error.message`, `config = error.config`). -/
def mkAxiosHttpApiError {π η : Type} (error : AxiosError π η) : AxiosHttpApiErrorImpl π η where
  statusCode := error.response.map (fun r => r.status)
  statusText := error.response.map (fun r => r.statusText)
  serverErrorCode := error.response.bind (fun r => r.data.bind (fun d => d.name))
  serverErrorMessage := error.response.bind (fun r => r.data.bind (fun d => d.message))
  message := error.message
  name := "HttpApiError"
  config := error.config

/-- The default argument of `getErrorMessage` in the source. -/
def defaultErrorMessageKo : String := "서비스에 일시적인 문제가 있습니다. 다시 시도해 보세요."

/-- `getErrorMessage`: `if (this.serverErrorMessage) return it; if (this.message)
return it; return defaultErrorMessage`.  The JS `if` tests truthiness, so an
empty string falls through like `undefined`. -/
def AxiosHttpApiErrorImpl.getErrorMessage {π η : Type} (e : AxiosHttpApiErrorImpl π η)
    (defaultErrorMessage : String) : String :=
  if truthyOS e.serverErrorMessage then e.serverErrorMessage.getD ""
  else if truthyS e.message then e.message
  else defaultErrorMessage

/-- `isUnauthorized = () => this.statusCode == 401` (loose equality:
`undefined == 401` is false). -/
def AxiosHttpApiErrorImpl.isUnauthorized {π η : Type} (e : AxiosHttpApiErrorImpl π η) : Bool :=
  e.statusCode == some 401

/-- `isForbidden = () => this.statusCode == 403`. -/
def AxiosHttpApiErrorImpl.isForbidden {π η : Type} (e : AxiosHttpApiErrorImpl π η) : Bool :=
  e.statusCode == some 403

/-- `isNotFound = () => this.statusCode == 404`. -/
def AxiosHttpApiErrorImpl.isNotFound {π η : Type} (e : AxiosHttpApiErrorImpl π η) : Bool :=
  e.statusCode == some 404

/-- `isConflict = () => this.statusCode == 409`. -/
def AxiosHttpApiErrorImpl.isConflict {π η : Type} (e : AxiosHttpApiErrorImpl π η) : Bool :=
  e.statusCode == some 409

/-- `requestConfig.retryCount ??= 0`: keep an already-set count, initialize an
unset one to 0.  Never an increment. -/
def ensureRetryCount {π η : Type} (c : AxiosRequestConfig π η) : AxiosRequestConfig π η :=
  { c with retryCount := some (c.retryCount.getD 0) }

/-- `getCustomAxiosRequestConfig`: casts the stored config and applies
`retryCount ??= 0`.  An absent config (the bare-wrapped error case, where
`error.config` is `undefined`) is modelled as `none`. -/
def AxiosHttpApiErrorImpl.getCustomAxiosRequestConfig {π η : Type}
    (e : AxiosHttpApiErrorImpl π η) : Option (AxiosRequestConfig π η) :=
  e.config.map ensureRetryCount

/-- A raw failure reaching the response interceptor's error branch: either a
real `AxiosError` (`axios.isAxiosError(error)` true) or any other thrown
`Error`, of which the code only reads `.message`. -/
inductive RawFailure (π η : Type) where
  | axios (e : AxiosError π η)
  | plain (message : String)

/-- `axios.isAxiosError(error) ? error : new AxiosError<ErrorResponseDto>(error.message)`:
a non-axios failure is re-wrapped as a bare `AxiosError` carrying only the
message (no response, no config). -/
def coerceToAxiosError {π η : Type} : RawFailure π η → AxiosError π η
  | .axios e => e
  | .plain message => { response := none, message := message, config := none }

/-- The response interceptor's success handler: returns the response unchanged
(source comment: no special handling on success). -/
def responseOnFulfilled {α : Type} (response : AxiosResponse α) : AxiosResponse α :=
  response

/-- The response interceptor's error handler: wrap into `AxiosHttpApiErrorImpl`
and reject with the wrapped error (never the original failure). -/
def responseOnRejected {π η : Type} (error : RawFailure π η) : AxiosHttpApiErrorImpl π η :=
  mkAxiosHttpApiError (coerceToAxiosError error)

/-- The request interceptor's handlers installed by `setInterceptors`:
config passed through unchanged, error re-rejected unchanged. -/
def requestOnFulfilled {π η : Type} (config : AxiosRequestConfig π η) : AxiosRequestConfig π η :=
  config

/-- The request interceptor's error handler (`Promise.reject(error)`). -/
def requestOnRejected (error : String) : String :=
  error

/-- HTTP method of an issued request. -/
inductive HttpMethod where
  | get
  | delete
  | post
  | put
  | patch
deriving DecidableEq

/-- The body the adapter hands to the transport: none for get/delete, the
(optionally `null` or omitted) `requestModel` for post/put/patch, or a
multipart form (ordered key/blob entries) for uploadFile. -/
inductive BodyData (δ β : Type) where
  | noBody
  | model (m : Option (Option δ))
  | form (entries : List (String × β))

/-- A request as it reaches the transport: method, relative uri, body, config. -/
structure TransportRequest (π η δ β : Type) where
  method : HttpMethod
  uri : String
  body : BodyData δ β
  config : AxiosRequestConfig π η

/-- Outcome of one transport call: a settled response or a raw failure. -/
inductive TransportOutcome (π η α : Type) where
  | success (response : AxiosResponse α)
  | failure (error : RawFailure π η)

/-- The transport oracle abstracting the axios instance's network call. -/
def Transport (π η δ β α : Type) : Type :=
  TransportRequest π η δ β → TransportOutcome π η α

/-- `FormData`: an ordered multiset of key/value entries. -/
structure FormDataM (β : Type) where
  entries : List (String × β)

/-- `FormData.append(name, file)`: appends one entry at the end. -/
def FormDataM.append {β : Type} (fd : FormDataM β) (nm : String) (file : β) : FormDataM β :=
  { entries := fd.entries ++ [(nm, file)] }

/-- `new FormData()`. -/
def FormDataM.empty {β : Type} : FormDataM β := { entries := [] }

/-- `const form = new FormData(); files.forEach((file) => form.append(name, file))`. -/
def buildUploadForm {β : Type} (nm : String) (files : List β) : FormDataM β :=
  files.foldl (fun fd file => fd.append nm file) FormDataM.empty

/-- `buildAxiosRequestConfig(params, headers)`: packs params/headers; the
config it builds has no `retryCount` set. -/
def buildAxiosRequestConfig {π η : Type} (params : Option π) (headers : Option η) :
    AxiosRequestConfig π η :=
  { params := params, headers := headers, retryCount := none }

/-- Applies the installed response interceptor to a transport outcome:
success passes through `responseOnFulfilled`, failure becomes a rejection
with the normalized error from `responseOnRejected`. -/
def applyResponseInterceptor {π η α : Type} (o : TransportOutcome π η α) :
    Except (AxiosHttpApiErrorImpl π η) (AxiosResponse α) :=
  match o with
  | .success response => .ok (responseOnFulfilled response)
  | .failure error => .error (responseOnRejected error)

/-- `createHttpApiResponse`: resolve with `response.data`, re-reject any error. -/
def createHttpApiResponse {π η α : Type}
    (response : Except (AxiosHttpApiErrorImpl π η) (AxiosResponse α)) :
    Except (AxiosHttpApiErrorImpl π η) α :=
  match response with
  | .ok r => .ok r.data
  | .error e => .error e

/-- Issues one request on the transport, recording it in the log, and runs the
settled outcome through the interceptor pipeline and `createHttpApiResponse`. -/
def sendAndHandle {π η δ β α : Type} (transport : Transport π η δ β α)
    (req : TransportRequest π η δ β) (log : List (TransportRequest π η δ β)) :
    Except (AxiosHttpApiErrorImpl π η) α × List (TransportRequest π η δ β) :=
  (createHttpApiResponse (applyResponseInterceptor (transport req)), log ++ [req])

/-- `getRequest(uri, params, headers)`: GET with no body. -/
def getRequest {π η δ β α : Type} (transport : Transport π η δ β α) (uri : String)
    (params : Option π) (headers : Option η) (log : List (TransportRequest π η δ β)) :
    Except (AxiosHttpApiErrorImpl π η) α × List (TransportRequest π η δ β) :=
  sendAndHandle transport
    { method := .get, uri := uri, body := .noBody,
      config := buildAxiosRequestConfig params headers } log

/-- `deleteRequest(uri, params, headers)`: DELETE with no body. -/
def deleteRequest {π η δ β α : Type} (transport : Transport π η δ β α) (uri : String)
    (params : Option π) (headers : Option η) (log : List (TransportRequest π η δ β)) :
    Except (AxiosHttpApiErrorImpl π η) α × List (TransportRequest π η δ β) :=
  sendAndHandle transport
    { method := .delete, uri := uri, body := .noBody,
      config := buildAxiosRequestConfig params headers } log

/-- `postRequest(uri, params, requestModel, headers)`. -/
def postRequest {π η δ β α : Type} (transport : Transport π η δ β α) (uri : String)
    (params : Option π) (requestModel : Option (Option δ)) (headers : Option η)
    (log : List (TransportRequest π η δ β)) :
    Except (AxiosHttpApiErrorImpl π η) α × List (TransportRequest π η δ β) :=
  sendAndHandle transport
    { method := .post, uri := uri, body := .model requestModel,
      config := buildAxiosRequestConfig params headers } log

/-- `putRequest(uri, params, requestModel, headers)`. -/
def putRequest {π η δ β α : Type} (transport : Transport π η δ β α) (uri : String)
    (params : Option π) (requestModel : Option (Option δ)) (headers : Option η)
    (log : List (TransportRequest π η δ β)) :
    Except (AxiosHttpApiErrorImpl π η) α × List (TransportRequest π η δ β) :=
  sendAndHandle transport
    { method := .put, uri := uri, body := .model requestModel,
      config := buildAxiosRequestConfig params headers } log

/-- `patchRequest(uri, params, requestModel, headers)`. -/
def patchRequest {π η δ β α : Type} (transport : Transport π η δ β α) (uri : String)
    (params : Option π) (requestModel : Option (Option δ)) (headers : Option η)
    (log : List (TransportRequest π η δ β)) :
    Except (AxiosHttpApiErrorImpl π η) α × List (TransportRequest π η δ β) :=
  sendAndHandle transport
    { method := .patch, uri := uri, body := .model requestModel,
      config := buildAxiosRequestConfig params headers } log

/-- `uploadFileRequest(uri, name, files, params, headers)`: builds a FormData
with every blob appended under `name`, then POSTs it. -/
def uploadFileRequest {π η δ β α : Type} (transport : Transport π η δ β α) (uri : String)
    (nm : String) (files : List β) (params : Option π) (headers : Option η)
    (log : List (TransportRequest π η δ β)) :
    Except (AxiosHttpApiErrorImpl π η) α × List (TransportRequest π η δ β) :=
  sendAndHandle transport
    { method := .post, uri := uri, body := .form (buildUploadForm nm files).entries,
      config := buildAxiosRequestConfig params headers } log

/-- One invocation of one of the six client operations, with its arguments. -/
inductive OpCall (π η δ β : Type) where
  | get (uri : String) (params : Option π) (headers : Option η)
  | delete (uri : String) (params : Option π) (headers : Option η)
  | post (uri : String) (params : Option π) (requestModel : Option (Option δ)) (headers : Option η)
  | put (uri : String) (params : Option π) (requestModel : Option (Option δ)) (headers : Option η)
  | patch (uri : String) (params : Option π) (requestModel : Option (Option δ)) (headers : Option η)
  | upload (uri : String) (nm : String) (files : List β) (params : Option π) (headers : Option η)

/-- Dispatches an operation invocation to the corresponding client method. -/
def runOp {π η δ β α : Type} (transport : Transport π η δ β α) (c : OpCall π η δ β)
    (log : List (TransportRequest π η δ β)) :
    Except (AxiosHttpApiErrorImpl π η) α × List (TransportRequest π η δ β) :=
  match c with
  | .get uri params headers => getRequest transport uri params headers log
  | .delete uri params headers => deleteRequest transport uri params headers log
  | .post uri params requestModel headers => postRequest transport uri params requestModel headers log
  | .put uri params requestModel headers => putRequest transport uri params requestModel headers log
  | .patch uri params requestModel headers => patchRequest transport uri params requestModel headers log
  | .upload uri nm files params headers => uploadFileRequest transport uri nm files params headers log

/-- The single transport request each operation constructs. -/
def requestOf {π η δ β : Type} : OpCall π η δ β → TransportRequest π η δ β
  | .get uri params headers =>
      { method := .get, uri := uri, body := .noBody,
        config := buildAxiosRequestConfig params headers }
  | .delete uri params headers =>
      { method := .delete, uri := uri, body := .noBody,
        config := buildAxiosRequestConfig params headers }
  | .post uri params requestModel headers =>
      { method := .post, uri := uri, body := .model requestModel,
        config := buildAxiosRequestConfig params headers }
  | .put uri params requestModel headers =>
      { method := .put, uri := uri, body := .model requestModel,
        config := buildAxiosRequestConfig params headers }
  | .patch uri params requestModel headers =>
      { method := .patch, uri := uri, body := .model requestModel,
        config := buildAxiosRequestConfig params headers }
  | .upload uri nm files params headers =>
      { method := .post, uri := uri, body := .form (buildUploadForm nm files).entries,
        config := buildAxiosRequestConfig params headers }

/-- `export const serverUrl = 'https://api.trend.kimhwan.kr'`. -/
def serverUrl : String := "https://api.trend.kimhwan.kr"

/-- Raw string interpolation of the source's template literal for apiBaseUrl. -/
def apiBaseUrl : String := serverUrl ++ "/api/"

/-- Model of the axios instance: its static configuration (baseURL) and the
interceptor chains registered on it (each entry a fulfilled/rejected handler
pair). -/
structure AxiosInstanceM (π η α : Type) where
  baseURL : String
  requestInterceptors :
    List ((AxiosRequestConfig π η → AxiosRequestConfig π η) × (String → String))
  responseInterceptors :
    List ((AxiosResponse α → AxiosResponse α) × (RawFailure π η → AxiosHttpApiErrorImpl π η))

/-- `axios.create(\x7b baseURL \x7d)`: a fresh instance with no interceptors. -/
def axiosCreateInstance {π η α : Type} (baseURL : String) : AxiosInstanceM π η α :=
  { baseURL := baseURL, requestInterceptors := [], responseInterceptors := [] }

/-- `setInterceptors(instance)`: registers the pass-through request interceptor
and the normalizing response interceptor, returning the instance. -/
def setInterceptors {π η α : Type} (inst : AxiosInstanceM π η α) : AxiosInstanceM π η α :=
  { inst with
    requestInterceptors := inst.requestInterceptors ++ [(requestOnFulfilled, requestOnRejected)],
    responseInterceptors := inst.responseInterceptors ++ [(responseOnFulfilled, responseOnRejected)] }

/-- `AxiosHttpApiClientImpl`: holds its one axios instance (`this.instance`;
renamed `inst` because `instance` is a Lean keyword). -/
structure AxiosHttpApiClientImpl (π η α : Type) where
  inst : AxiosInstanceM π η α

/-- The `AxiosHttpApiClientImpl` constructor:
`axios.create(\x7b baseURL: apiBaseUrl + uri \x7d)` followed by `setInterceptors`. -/
def AxiosHttpApiClientImpl.create {π η α : Type} (uri : String) : AxiosHttpApiClientImpl π η α :=
  { inst := setInterceptors (axiosCreateInstance (apiBaseUrl ++ uri)) }

/-- `createHttpApiClient(uri)`: `new AxiosHttpApiClientImpl(uri)`. -/
def createHttpApiClient {π η α : Type} (uri : String) : AxiosHttpApiClientImpl π η α :=
  AxiosHttpApiClientImpl.create uri

/-- Modelled from the spec: the transport's resolution of a relative uri
against the client's bound base URL is not code of this repository (it is the
axios library); the spec states the convention
`https://api.<host>/api/<resourcePath>/<uri>`, i.e. the bound base followed by
a slash and the relative uri. -/
def requestTarget {π η α : Type} (client : AxiosHttpApiClientImpl π η α) (uri : String) : String :=
  client.inst.baseURL ++ "/" ++ uri

/-! ## Shared lemmas -/

/-- Every operation's result component is the interceptor pipeline applied to
the transport's outcome on the one request it constructs. -/
theorem runOp_fst {π η δ β α : Type} (t : Transport π η δ β α) (c : OpCall π η δ β)
    (log : List (TransportRequest π η δ β)) :
    (runOp t c log).1 = createHttpApiResponse (applyResponseInterceptor (t (requestOf c))) := by
  cases c <;> rfl

/-- Every operation appends exactly its one constructed request to the log. -/
theorem runOp_snd {π η δ β α : Type} (t : Transport π η δ β α) (c : OpCall π η δ β)
    (log : List (TransportRequest π η δ β)) :
    (runOp t c log).2 = log ++ [requestOf c] := by
  cases c <;> rfl

/-- Folding `FormData.append` over a list of files appends one entry per file,
in order, under the given key. -/
theorem formData_foldl_entries {β : Type} (nm : String) (files : List β)
    (acc : List (String × β)) :
    (files.foldl (fun fd file => fd.append nm file) (FormDataM.mk acc)).entries =
      acc ++ files.map (fun file => (nm, file)) := by
  induction files generalizing acc with
  | nil => simp
  | cons x xs ih =>
      rw [List.foldl_cons]
      have hx : (FormDataM.mk acc).append nm x = FormDataM.mk (acc ++ [(nm, x)]) := rfl
      rw [hx, ih]
      simp

/-- The upload form holds exactly one entry per file, under the field name,
in the files' order. -/
theorem buildUploadForm_entries {β : Type} (nm : String) (files : List β) :
    (buildUploadForm nm files).entries = files.map (fun file => (nm, file)) := by
  have h := formData_foldl_entries nm files []
  simpa [buildUploadForm, FormDataM.empty] using h

/-! ## Concrete fixtures used by witnesses and counterexamples -/

/-- A transport that always fails with a bare (non-axios) failure. -/
def tFail : Transport Unit Unit Unit Unit Unit :=
  fun _ => .failure (.plain "boom")

/-- A concrete GET invocation. -/
def cGetCall : OpCall Unit Unit Unit Unit := .get "users" none none

/-- The normalized error `tFail` produces. -/
def eBoom : AxiosHttpApiErrorImpl Unit Unit := responseOnRejected (RawFailure.plain "boom")

/-- A concrete successful response carrying payload `7`. -/
def rOk : AxiosResponse Nat := { status := 200, statusText := "OK", data := 7 }

/-- A transport that always succeeds with `rOk`. -/
def tOk : Transport Unit Unit Unit Unit Nat := fun _ => .success rOk

/-- A concrete DELETE invocation. -/
def cDeleteCall : OpCall Unit Unit Unit Unit := .delete "items" none none

/-- A normalized 404 error with a server error body. -/
def err404 : AxiosHttpApiErrorImpl Unit Unit :=
  mkAxiosHttpApiError
    { response :=
        some { status := 404
               statusText := "Not Found"
               data := some { name := some "NotFound", message := some "no such user" } }
      message := "Request failed with status code 404"
      config := none }

/-- A failure whose response body carries `message: ""` (present but empty). -/
def cex4 : AxiosHttpApiErrorImpl Unit Unit :=
  mkAxiosHttpApiError
    { response :=
        some { status := 500
               statusText := "Internal Server Error"
               data := some { name := some "ServerError", message := some "" } }
      message := "boom"
      config := none }

/-- An axios failure with a full response and server error body. -/
def err500raw : AxiosError Unit Unit :=
  { response :=
      some { status := 500
             statusText := "Internal Server Error"
             data := some { name := some "E_DB", message := some "db down" } }
    message := "Request failed with status code 500"
    config := none }

/-- A transport failure with no response and an empty message. -/
def err6 : AxiosError Unit Unit := { response := none, message := "", config := none }

/-- A network failure: no response, axios's generic message. -/
def errNet : AxiosError Unit Unit := { response := none, message := "Network Error", config := none }

/-! ## Claim theorems -/

/-- C1: for every operation of the client and every underlying failure
(axios error with response, axios error without response, or a non-axios
failure from request setup), the promise rejects with the Normalized Error
built by the interceptor (its `name` is `'HttpApiError'`), never with the raw
failure object. -/
theorem runOp_rejection_normalized {π η δ β α : Type} (t : Transport π η δ β α)
    (c : OpCall π η δ β) (log : List (TransportRequest π η δ β))
    (e : AxiosHttpApiErrorImpl π η) (h : (runOp t c log).1 = .error e) :
    e.name = "HttpApiError" ∧
    ∃ f : RawFailure π η, t (requestOf c) = .failure f ∧
      e = mkAxiosHttpApiError (coerceToAxiosError f) := by
  rw [runOp_fst] at h
  cases hT : t (requestOf c) with
  | success r =>
      rw [hT] at h
      simp [applyResponseInterceptor, createHttpApiResponse] at h
  | failure f =>
      rw [hT] at h
      simp only [applyResponseInterceptor, createHttpApiResponse, Except.error.injEq] at h
      subst h
      exact ⟨rfl, f, rfl, rfl⟩

/-- C1 witness: a bare setup failure on a GET is rejected as a Normalized
Error wrapping the re-wrapped message. -/
theorem runOp_rejection_normalized_witness :
    eBoom.name = "HttpApiError" ∧
    ∃ f : RawFailure Unit Unit, tFail (requestOf cGetCall) = .failure f ∧
      eBoom = mkAxiosHttpApiError (coerceToAxiosError f) :=
  runOp_rejection_normalized tFail cGetCall [] eBoom rfl

/-- C2: for every operation, when the transport settles successfully the
promise resolves with exactly the response's payload, and the response
interceptor's success branch is the identity. -/
theorem runOp_success_payload {π η δ β α : Type} (t : Transport π η δ β α)
    (c : OpCall π η δ β) (log : List (TransportRequest π η δ β))
    (r : AxiosResponse α) (h : t (requestOf c) = .success r) :
    (runOp t c log).1 = .ok r.data ∧ responseOnFulfilled r = r := by
  refine ⟨?_, rfl⟩
  rw [runOp_fst, h]
  rfl

/-- C2 witness: a successful DELETE resolves with the payload `7`. -/
theorem runOp_success_payload_witness :
    (runOp tOk cDeleteCall []).1 = .ok rOk.data ∧ responseOnFulfilled rOk = rOk :=
  runOp_success_payload tOk cDeleteCall [] rOk rfl

/-- C3: each convenience predicate is true iff `statusCode` equals its
status (404/401/403/409), and all four are false when `statusCode` is
absent. -/
theorem httpApiError_status_predicates {π η : Type} (e : AxiosHttpApiErrorImpl π η) :
    (e.isNotFound = true ↔ e.statusCode = some 404) ∧
    (e.isUnauthorized = true ↔ e.statusCode = some 401) ∧
    (e.isForbidden = true ↔ e.statusCode = some 403) ∧
    (e.isConflict = true ↔ e.statusCode = some 409) ∧
    (e.statusCode = none →
      e.isNotFound = false ∧ e.isUnauthorized = false ∧
      e.isForbidden = false ∧ e.isConflict = false) := by
  unfold AxiosHttpApiErrorImpl.isNotFound AxiosHttpApiErrorImpl.isUnauthorized
    AxiosHttpApiErrorImpl.isForbidden AxiosHttpApiErrorImpl.isConflict
  refine ⟨by simp, by simp, by simp, by simp, ?_⟩
  intro h
  rw [h]
  exact ⟨rfl, rfl, rfl, rfl⟩

/-- C3 witness: a 404 error satisfies `isNotFound`. -/
theorem httpApiError_status_predicates_witness :
    err404.isNotFound = true :=
  (httpApiError_status_predicates err404).1.mpr (by decide)

/-- C4 counterexample: a server error body with `message: ""` makes
`serverErrorMessage` present, yet `getErrorMessage` skips it (the JS `if`
tests truthiness) and returns the generic message `"boom"` instead of the
present `serverErrorMessage` value `""`. -/
theorem getErrorMessage_present_claim_cex :
    cex4.serverErrorMessage = some "" ∧ cex4.getErrorMessage "fb" = "boom" := by
  refine ⟨by decide, by decide⟩

/-- C4 (amended): `getErrorMessage(fallback)` returns `serverErrorMessage`
when it is present and non-empty; otherwise the generic message when it is
non-empty; otherwise the fallback. -/
theorem getErrorMessage_priority_truthy {π η : Type} (e : AxiosHttpApiErrorImpl π η)
    (fb : String) :
    (∀ s, e.serverErrorMessage = some s → s ≠ "" → e.getErrorMessage fb = s) ∧
    ((e.serverErrorMessage = none ∨ e.serverErrorMessage = some "") →
      e.message ≠ "" → e.getErrorMessage fb = e.message) ∧
    ((e.serverErrorMessage = none ∨ e.serverErrorMessage = some "") →
      e.message = "" → e.getErrorMessage fb = fb) := by
  unfold AxiosHttpApiErrorImpl.getErrorMessage
  refine ⟨?_, ?_, ?_⟩
  · intro s hs hne
    rw [hs]
    simp [truthyOS, truthyS, hne]
  · rintro (h | h) hm <;> rw [h] <;> simp [truthyOS, truthyS, hm]
  · rintro (h | h) hm <;> rw [h] <;> simp [truthyOS, truthyS, hm]

/-- C4 witness: a present, non-empty server message wins over the generic
message and the fallback. -/
theorem getErrorMessage_priority_truthy_witness :
    err404.getErrorMessage "fb" = "no such user" :=
  (getErrorMessage_priority_truthy err404 "fb").1 "no such user" (by decide) (by decide)

/-- C5: the Normalized Error construction copies `statusCode`/`statusText`
from the response when one is present (absent otherwise), copies
`serverErrorCode`/`serverErrorMessage` from the response body's `name`/`message`
(absent when the response or its body is absent), and sets the generic
`message` to the underlying failure's own message. -/
theorem mkError_field_mapping {π η : Type} (err : AxiosError π η) :
    (∀ r, err.response = some r →
      (mkAxiosHttpApiError err).statusCode = some r.status ∧
      (mkAxiosHttpApiError err).statusText = some r.statusText) ∧
    (err.response = none →
      (mkAxiosHttpApiError err).statusCode = none ∧
      (mkAxiosHttpApiError err).statusText = none) ∧
    (∀ r d, err.response = some r → r.data = some d →
      (mkAxiosHttpApiError err).serverErrorCode = d.name ∧
      (mkAxiosHttpApiError err).serverErrorMessage = d.message) ∧
    (∀ r, err.response = some r → r.data = none →
      (mkAxiosHttpApiError err).serverErrorCode = none ∧
      (mkAxiosHttpApiError err).serverErrorMessage = none) ∧
    (err.response = none →
      (mkAxiosHttpApiError err).serverErrorCode = none ∧
      (mkAxiosHttpApiError err).serverErrorMessage = none) ∧
    (mkAxiosHttpApiError err).message = err.message := by
  unfold mkAxiosHttpApiError
  refine ⟨?_, ?_, ?_, ?_, ?_, rfl⟩ <;> intros <;> simp_all

/-- C5 witness: a 500 response with body `name := "E_DB"`, `message := "db down"`
maps into the corresponding Normalized Error fields. -/
theorem mkError_field_mapping_witness :
    (mkAxiosHttpApiError err500raw).statusCode = some 500 ∧
    (mkAxiosHttpApiError err500raw).serverErrorCode = some "E_DB" ∧
    (mkAxiosHttpApiError err500raw).message = "Request failed with status code 500" :=
  ⟨((mkError_field_mapping err500raw).1 _ rfl).1,
   ((mkError_field_mapping err500raw).2.2.1 _ _ rfl rfl).1,
   (mkError_field_mapping err500raw).2.2.2.2.2⟩

/-- C6 counterexample: a transport failure with no response and an empty
generic message rejects with `getErrorMessage("fallback") = "fallback"`, not
with the transport's (empty) generic message, because the JS `if` tests
truthiness. -/
theorem noResponse_emptyMessage_cex :
    err6.response = none ∧ err6.message = "" ∧
    (mkAxiosHttpApiError err6).getErrorMessage "fallback" = "fallback" :=
  ⟨rfl, rfl, by decide⟩

/-- C6 (amended): a failure carrying no response rejects with a Normalized
Error whose `statusCode`, `statusText`, `serverErrorCode` and
`serverErrorMessage` are all absent, and `getErrorMessage(fallback)` returns
the transport's generic message whenever that message is non-empty. -/
theorem noResponse_error_shape {π η : Type} (err : AxiosError π η)
    (h : err.response = none) (fb : String) :
    (mkAxiosHttpApiError err).statusCode = none ∧
    (mkAxiosHttpApiError err).statusText = none ∧
    (mkAxiosHttpApiError err).serverErrorCode = none ∧
    (mkAxiosHttpApiError err).serverErrorMessage = none ∧
    (err.message ≠ "" → (mkAxiosHttpApiError err).getErrorMessage fb = err.message) := by
  unfold mkAxiosHttpApiError
  refine ⟨by simp [h], by simp [h], by simp [h], by simp [h], ?_⟩
  intro hm
  unfold AxiosHttpApiErrorImpl.getErrorMessage
  simp [h, truthyOS, truthyS, hm]

/-- C6 witness: a network failure (`"Network Error"`, no response) has no
status fields and `getErrorMessage("fallback")` returns `"Network Error"`. -/
theorem noResponse_error_shape_witness :
    (mkAxiosHttpApiError errNet).statusCode = none ∧
    (mkAxiosHttpApiError errNet).getErrorMessage "fallback" = "Network Error" :=
  ⟨(noResponse_error_shape errNet rfl "fallback").1,
   (noResponse_error_shape errNet rfl "fallback").2.2.2.2 (by decide)⟩

/-- C7: an upload with field name `nm` and an ordered list of blobs issues
exactly one POST to the given uri whose multipart body has one entry per blob,
all under key `nm`, in the blobs' order. -/
theorem upload_form_ordered {π η δ β α : Type} (transport : Transport π η δ β α)
    (uri nm : String) (files : List β) (params : Option π) (headers : Option η)
    (log : List (TransportRequest π η δ β)) :
    (uploadFileRequest transport uri nm files params headers log).2 =
      log ++ [{ method := .post
                uri := uri
                body := .form (files.map (fun file => (nm, file)))
                config := buildAxiosRequestConfig params headers }] ∧
    (files.map (fun file => (nm, file))).length = files.length := by
  refine ⟨?_, by simp⟩
  simp [uploadFileRequest, sendAndHandle, buildUploadForm_entries]

/-- C8: every invocation of any of the six operations issues exactly one
transport request; the request it issues carries no `retryCount`, and
`retryCount ??= 0` (the only place the field is touched) initializes an unset
count to 0 and otherwise keeps the stored value — it never increments. -/
theorem runOp_single_request_no_retry {π η δ β α : Type} (t : Transport π η δ β α)
    (c : OpCall π η δ β) (log : List (TransportRequest π η δ β))
    (cfg : AxiosRequestConfig π η) :
    (runOp t c log).2 = log ++ [requestOf c] ∧
    (runOp t c log).2.length = log.length + 1 ∧
    (requestOf c).config.retryCount = none ∧
    (ensureRetryCount cfg).retryCount = some (cfg.retryCount.getD 0) := by
  refine ⟨runOp_snd t c log, ?_, ?_, rfl⟩
  · rw [runOp_snd]
    simp
  · cases c <;> rfl

/-- C9: `createHttpApiClient(p)` (a total function — construction cannot fail)
returns a client whose one transport instance is bound to `apiBaseUrl ++ p`
and already carries exactly the pass-through request interceptor and the
normalizing response interceptor, so a relative uri `u` targets
`https://api.trend.kimhwan.kr/api/<p>/<u>`. -/
theorem createHttpApiClient_binding {π η α : Type} (p u : String) :
    (createHttpApiClient p : AxiosHttpApiClientImpl π η α).inst.baseURL = apiBaseUrl ++ p ∧
    (createHttpApiClient p : AxiosHttpApiClientImpl π η α).inst.requestInterceptors =
      [(requestOnFulfilled, requestOnRejected)] ∧
    (createHttpApiClient p : AxiosHttpApiClientImpl π η α).inst.responseInterceptors =
      [(responseOnFulfilled, responseOnRejected)] ∧
    requestTarget (createHttpApiClient p : AxiosHttpApiClientImpl π η α) u =
      "https://api.trend.kimhwan.kr/api/" ++ p ++ "/" ++ u :=
  ⟨rfl, rfl, rfl, rfl⟩

/-- C10: every error the response interceptor rejects with has
`name = 'HttpApiError'`; a non-axios failure is first re-wrapped as a bare
transport error carrying only the original message, so its Normalized Error
has no status or server fields and its `message` is the original failure's
message. -/
theorem responseOnRejected_normalizes {π η : Type} (f : RawFailure π η) (msg : String) :
    (responseOnRejected f).name = "HttpApiError" ∧
    coerceToAxiosError (RawFailure.plain msg : RawFailure π η) =
      { response := none, message := msg, config := none } ∧
    (responseOnRejected (RawFailure.plain msg : RawFailure π η)).statusCode = none ∧
    (responseOnRejected (RawFailure.plain msg : RawFailure π η)).statusText = none ∧
    (responseOnRejected (RawFailure.plain msg : RawFailure π η)).serverErrorCode = none ∧
    (responseOnRejected (RawFailure.plain msg : RawFailure π η)).serverErrorMessage = none ∧
    (responseOnRejected (RawFailure.plain msg : RawFailure π η)).message = msg :=
  ⟨rfl, rfl, rfl, rfl, rfl, rfl, rfl⟩
